import Mathlib

/-!
Verification of the Arcane patch-validation core.

This file gives a shallow embedding of the two core modules of the
repository — `src/arcane/validator.py` (patch application with backup
and restore, build gate, JUnit test classification) and
`src/arcane/agent.py` (the bounded plan/validate retry loop) — and
proves properties of the embedded functions.

Modelling decisions, stated once here:

* The file system touched by `run_validation` is reduced to the two
  paths it mutates: the target source file and its sibling backup file
  (`Path.with_suffix(".java.bak")` always yields a path distinct from
  the target, since a Python suffix never contains two dots).  A file
  is `Option String` content, `none` meaning the file does not exist.
* Exceptions are modelled by an explicit scenario parameter `StepExn`
  naming which step of the try-block raises, carrying the exception
  message (Python `str(e)`).  A failed `open(...,"w").write` is
  modelled as leaving the target truncated (content `""`); the restore
  step overwrites it in any case.
* The external subprocess running the JUnit test is modelled by a
  `TestExec` outcome: it either completed with an exit code and the
  captured stdout/stderr, or hit the 60 s timeout
  (`subprocess.TimeoutExpired`, which carries no exit code), or raised
  some other exception inside `_run_java_test`.
* The external collaborators of the agent (source read, analyzer,
  planner, retry planner, validator oracle) are parameters of
  `run_fix`; per-call nondeterminism of the planner/validator is
  modelled by passing the attempt index to the oracle.  `run_fix`
  additionally returns the trace of external calls it made, as a list
  of `Event`s, so that claims about which calls happen can be stated.
* Python truthiness of `Optional[str]` (`if not current_patch`) is
  `falsy` below: `None` and `""` are falsy.
-/

namespace Arcane

/-! ## Status constants (validator.py lines 13-18, agent.py) -/

def PASS : String := "PASS"

def FAIL_COMPILE : String := "FAIL_COMPILE"

def FAIL_TEST : String := "FAIL_TEST"

def FAIL_TIMEOUT : String := "FAIL_TIMEOUT"

def FAIL_ERROR : String := "FAIL_ERROR"

def FAIL_LOAD : String := "FAIL_LOAD"

def FAIL_PLAN : String := "FAIL_PLAN"

/-! ## The test step: `_run_java_test` (validator.py lines 64-126) -/

/-- Outcome of the `java ... org.junit.runner.JUnitCore` subprocess, as
observed by `_run_java_test`: normal completion with exit code and the
two captured streams, the 60-second timeout, or any other exception
(whose `str(e)` message is carried). -/
inductive TestExec where
  | completed (returncode : Int) (stdout stderr : String)
  | timedOut
  | raised (msg : String)
deriving DecidableEq, Repr

/-- The combined-output string built at validator.py line 103:
`f"STDOUT:\n\x7bstdout\x7d\n\nSTDERR:\n\x7bstderr\x7d"`. -/
def combinedOutput (stdout stderr : String) : String :=
  "STDOUT:\n" ++ stdout ++ "\n\nSTDERR:\n" ++ stderr

/-- Python `s[-1500:]` (validator.py line 104): the final 1500
characters of `s`, or all of `s` when it is shorter. -/
def tail1500 (s : String) : String :=
  String.mk (s.data.drop (s.data.length - 1500))

/-- Python `"OK" in stdout` (validator.py line 98): substring test. -/
def containsOK (s : String) : Bool :=
  decide (("OK").data <:+: s.data)

/-- Embedding of `_run_java_test` (validator.py lines 96-126), after the
subprocess has been launched: classify the `TestExec` outcome.  The
timeout branch is the `subprocess.TimeoutExpired` handler (line 106),
taken before any exit-code inspection; the `raised` branch is the
generic `except Exception` handler (line 122). -/
def run_java_test (t : TestExec) : String × Option String :=
  match t with
  | .timedOut =>
      (FAIL_TIMEOUT, some "Test run exceeded 60-second timeout (potential infinite loop).")
  | .raised m => (FAIL_ERROR, some m)
  | .completed rc stdout stderr =>
      if rc == 0 && containsOK stdout then (PASS, none)
      else (FAIL_TEST, some (tail1500 (combinedOutput stdout stderr)))

/-! ## The validation pipeline: `run_validation` (validator.py lines 23-61) -/

/-- The slice of the file system `run_validation` mutates: the target
source file and its sibling `.java.bak` backup.  `none` = absent. -/
structure FS where
  target : Option String
  backup : Option String
deriving DecidableEq, Repr

/-- Which step of the try-block in `run_validation` raises an
exception, if any, with the `str(e)` message of the exception. -/
inductive StepExn where
  | ok
  | copyRaises (msg : String)
  | writeRaises (msg : String)
  | compileRaises (msg : String)
  | testRaises (msg : String)
deriving DecidableEq, Repr

/-- The message of the exception a `StepExn` scenario raises, if any. -/
def StepExn.raisedMsg : StepExn → Option String
  | .ok => none
  | .copyRaises m => some m
  | .writeRaises m => some m
  | .compileRaises m => some m
  | .testRaises m => some m

/-- Embedding of `run_validation` (validator.py lines 23-61).

Parameters beyond the patch text and the file-system state: the
exception scenario `exn`, the boolean result of
`compile_with_gradle` (`compileOk`), and the test subprocess outcome
`test`.  Mirrors the source line by line:

* missing target file → early `(FAIL_ERROR, "Bug file not found")`
  before the try-block (lines 33-35), no mutation;
* try-block: `shutil.copy` target→backup, overwrite target with the
  patch, `compile_with_gradle` (false → `FAIL_COMPILE` with the fixed
  message, line 44-46), then `_run_java_test` (line 49);
* `except Exception` → `(FAIL_ERROR, str(e))` (lines 54-56);
* `finally`: if the backup exists, `shutil.move` it back over the
  target (lines 58-61), which restores the content and removes the
  backup.  Note the move runs whenever a backup file exists, even one
  that predates the call. -/
def run_validation (patch : String) (fs : FS) (exn : StepExn) (compileOk : Bool)
    (test : TestExec) : (String × Option String) × FS :=
  match fs.target with
  | none => ((FAIL_ERROR, some "Bug file not found"), fs)
  | some orig =>
    let tryResult : (String × Option String) × FS :=
      match exn with
      | .copyRaises m => ((FAIL_ERROR, some m), fs)
      | .writeRaises m => ((FAIL_ERROR, some m), { target := some "", backup := some orig })
      | .compileRaises m => ((FAIL_ERROR, some m), { target := some patch, backup := some orig })
      | .testRaises m =>
          if compileOk then ((FAIL_ERROR, some m), { target := some patch, backup := some orig })
          else ((FAIL_COMPILE, some "Gradle build failed. Patch likely has a syntax error."),
                { target := some patch, backup := some orig })
      | .ok =>
          if compileOk then (run_java_test test, { target := some patch, backup := some orig })
          else ((FAIL_COMPILE, some "Gradle build failed. Patch likely has a syntax error."),
                { target := some patch, backup := some orig })
    match tryResult.2.backup with
    | some b => (tryResult.1, { target := some b, backup := none })
    | none => (tryResult.1, tryResult.2)

/-! ## The retry orchestrator: `ArcaneAgent.run_fix` (agent.py lines 33-121) -/

/-- `MAX_RETRIES = 3` (agent.py line 21). -/
def MAX_RETRIES : Nat := 3

/-- Trace of the external calls `run_fix` makes from inside its retry
loop: the initial planner call (`run_plan`, attempt 0), a retry-planner
call (`run_retry_plan`, with the failed patch and error context it was
handed), and a validation call (`run_validation`, with the patch it was
handed). -/
inductive Event where
  | planCall
  | retryCall (attempt : Nat) (failedPatch : Option String) (errMsg : Option String)
  | validateCall (attempt : Nat) (patch : String)
deriving DecidableEq, Repr

/-- The 0-based attempt index an event belongs to. -/
def Event.attemptIdx : Event → Nat
  | .planCall => 0
  | .retryCall a _ _ => a
  | .validateCall a _ => a

/-- Whether an event is a validation call. -/
def Event.isValidate : Event → Bool
  | .validateCall _ _ => true
  | _ => false

/-- Number of validation calls in a trace. -/
def countValidate (evs : List Event) : Nat :=
  evs.countP (fun e => e.isValidate)

/-- Python truthiness of an `Optional[str]`: `None` and `""` are falsy
(`if not current_patch`, agent.py line 76). -/
def falsy : Option String → Bool
  | none => true
  | some s => s.isEmpty

/-- The loop-carried variables of `run_fix` (agent.py lines 52-54):
`current_patch`, `validation_status`, `error_message`. -/
structure LoopState where
  currentPatch : Option String
  validationStatus : String
  errorMessage : Option String
deriving DecidableEq, Repr

/-- Initial loop state (agent.py lines 52-54): no patch yet, status
`"FAIL_PLAN"`, error message the sentinel `"No patch generated yet."`. -/
def initialLoopState : LoopState :=
  { currentPatch := none
    validationStatus := FAIL_PLAN
    errorMessage := some "No patch generated yet." }

/-- The `for attempt in range(MAX_RETRIES)` loop of `run_fix`
(agent.py lines 56-92), over the remaining attempt indices.

Per attempt: attempt 0 consults the initial planner `plan0`, later
attempts call the retry planner with the current patch and error
message (lines 59-74; `run_retry_plan` is defined in `planning.py`, so
the `if not run_retry_plan: break` guard of line 64 never fires).  A
falsy patch records `FAIL_PLAN` and continues (lines 76-79).  Otherwise
the patch is validated; status and error are saved; `PASS` breaks out
of the loop (lines 83-89).  Returns the final loop state and the trace
of external calls. -/
def runAttempts (plan0 : Option String)
    (retryPlan : Nat → Option String → Option String → Option String)
    (validate : Nat → String → String × Option String) :
    List Nat → LoopState → LoopState × List Event
  | [], s => (s, [])
  | a :: rest, s =>
    let patch := if a = 0 then plan0 else retryPlan a s.currentPatch s.errorMessage
    let ev : Event := if a = 0 then .planCall else .retryCall a s.currentPatch s.errorMessage
    if falsy patch then
      let r := runAttempts plan0 retryPlan validate rest
        { s with currentPatch := patch, validationStatus := FAIL_PLAN }
      (r.1, ev :: r.2)
    else
      let p := patch.getD ""
      let v := validate a p
      if v.1 = PASS then (⟨patch, v.1, v.2⟩, [ev, .validateCall a p])
      else
        let r := runAttempts plan0 retryPlan validate rest ⟨patch, v.1, v.2⟩
        (r.1, ev :: .validateCall a p :: r.2)

/-- The result dictionary built by `ArcaneAgent._create_result`
(agent.py lines 111-121). -/
structure RunFixResult where
  agent : String
  algorithm : String
  status : String
  patch : Option String
  metricsBefore : Option String
  metricsAfter : Option String
  errorMessage : Option String
deriving DecidableEq, Repr

/-- Embedding of `ArcaneAgent.run_fix` (agent.py lines 33-109).

`readResult` is the outcome of `bug_path.read_text` (`none` = it
raised); `metricsBefore`/`metricsAfter` are the opaque values the two
`run_analysis` calls would return (the analyzer is an external
collaborator; its `str(...)`/`"N/A"` rendering only feeds the planner
oracle `plan0` and is absorbed into it); `plan0`, `retryPlan` and
`validate` are the external planner and validator oracles.

On read failure, returns `_create_result(name, "FAIL_LOAD", None,
None)` — note `patch` and `error` keep their `None` defaults (line 45).
Otherwise runs the retry loop and builds the final record (lines
94-109): `patch` is `current_patch` only when the final status is
`PASS`, `metricsAfter` is only collected on `PASS`, and
`errorMessage` is the last saved error message. -/
def run_fix (algorithmName : String) (readResult : Option String)
    (metricsBefore metricsAfter : Option String)
    (plan0 : Option String)
    (retryPlan : Nat → Option String → Option String → Option String)
    (validate : Nat → String → String × Option String) :
    RunFixResult × List Event :=
  match readResult with
  | none =>
      ({ agent := "ArcaneAgent"
         algorithm := algorithmName
         status := FAIL_LOAD
         patch := none
         metricsBefore := none
         metricsAfter := none
         errorMessage := none }, [])
  | some _ =>
      let r := runAttempts plan0 retryPlan validate (List.range MAX_RETRIES) initialLoopState
      ({ agent := "ArcaneAgent"
         algorithm := algorithmName
         status := r.1.validationStatus
         patch := if r.1.validationStatus = PASS then r.1.currentPatch else none
         metricsBefore := metricsBefore
         metricsAfter := if r.1.validationStatus = PASS then metricsAfter else none
         errorMessage := r.1.errorMessage }, r.2)

/-! ## Helper lemmas -/

theorem tail1500_length (s : String) :
    (tail1500 s).length = s.length - (s.length - 1500) := by
  show (s.data.drop (s.data.length - 1500)).length = s.data.length - (s.data.length - 1500)
  rw [List.length_drop]

theorem tail1500_le (s : String) : (tail1500 s).length ≤ 1500 := by
  rw [tail1500_length]; omega

theorem tail1500_suffix (s : String) : (tail1500 s).data <:+ s.data := by
  simpa [tail1500] using List.drop_suffix (s.data.length - 1500) s.data

theorem tail1500_full (s : String) (h : 1500 ≤ s.length) :
    (tail1500 s).length = 1500 := by
  rw [tail1500_length]
  have : s.length = s.data.length := rfl
  omega

/-! ## C1: restoration invariant of run_validation -/

/-- C1.  For every patch text and every existing target file (with no
stale sibling backup), whatever the exception scenario, compile result
and test outcome, once `run_validation` returns the target file holds
its original bytes and the backup file no longer exists. -/
theorem C1_restoration (patch orig : String) (fs : FS) (exn : StepExn)
    (compileOk : Bool) (test : TestExec)
    (htarget : fs.target = some orig) (hbackup : fs.backup = none) :
    (run_validation patch fs exn compileOk test).2.target = some orig ∧
    (run_validation patch fs exn compileOk test).2.backup = none := by
  obtain ⟨t, b⟩ := fs
  simp only at htarget hbackup
  subst htarget hbackup
  cases exn <;> cases compileOk <;>
    simp [run_validation]

/-- Witness for C1 at a concrete input. -/
theorem C1_restoration_witness :
    (run_validation "patched" ⟨some "original", none⟩ .ok true .timedOut).2.target =
        some "original" ∧
    (run_validation "patched" ⟨some "original", none⟩ .ok true .timedOut).2.backup = none :=
  C1_restoration "patched" "original" ⟨some "original", none⟩ .ok true .timedOut rfl rfl

/-! ## C2: outcome classification of the test step -/

/-- C2.  Classification of a test execution: a timeout yields
`FAIL_TIMEOUT` with the fixed explanatory excerpt (the timeout is an
exception, so no exit code is even observed); exit code 0 with the
success marker in stdout yields `PASS` with no excerpt; exit code 0
without the marker, or a nonzero exit code, yields `FAIL_TEST` with an
excerpt drawn from the combined output. -/
theorem C2_classification (rc : Int) (stdout stderr : String) :
    run_java_test .timedOut =
      (FAIL_TIMEOUT, some "Test run exceeded 60-second timeout (potential infinite loop).") ∧
    (rc = 0 → containsOK stdout = true →
      run_java_test (.completed rc stdout stderr) = (PASS, none)) ∧
    (rc = 0 → containsOK stdout = false →
      run_java_test (.completed rc stdout stderr) =
        (FAIL_TEST, some (tail1500 (combinedOutput stdout stderr)))) ∧
    (rc ≠ 0 →
      run_java_test (.completed rc stdout stderr) =
        (FAIL_TEST, some (tail1500 (combinedOutput stdout stderr)))) := by
  refine ⟨rfl, ?_, ?_, ?_⟩
  · intro h hm
    subst h
    simp [run_java_test, hm]
  · intro h hm
    subst h
    simp [run_java_test, hm]
  · intro h
    simp [run_java_test, h]

/-- Witness for C2 at concrete inputs: a passing run, a marker-less
exit-0 run, and a nonzero-exit run. -/
theorem C2_classification_witness :
    run_java_test (.completed 0 "OK (1 test)" "") = (PASS, none) ∧
    run_java_test (.completed 0 "Tests run: 1" "") =
      (FAIL_TEST, some (tail1500 (combinedOutput "Tests run: 1" ""))) ∧
    run_java_test (.completed 1 "FAILURES!!!" "trace") =
      (FAIL_TEST, some (tail1500 (combinedOutput "FAILURES!!!" "trace"))) :=
  ⟨(C2_classification 0 "OK (1 test)" "").2.1 rfl (by decide),
   (C2_classification 0 "Tests run: 1" "").2.2.1 rfl (by decide),
   (C2_classification 1 "FAILURES!!!" "trace").2.2.2 (by decide)⟩

/-! ## C9: the success marker is the literal substring "OK" in stdout -/

/-- C9.  The test step classifies a completed run as `PASS` exactly
when the exit code is 0 and the literal substring `"OK"` occurs
anywhere in the captured stdout (stderr is never consulted); any other
completed run is classified `FAIL_TEST`. -/
theorem C9_success_marker (rc : Int) (stdout stderr : String) :
    ((run_java_test (.completed rc stdout stderr)).1 = PASS ↔
      rc = 0 ∧ ("OK").data <:+: stdout.data) ∧
    ((run_java_test (.completed rc stdout stderr)).1 = FAIL_TEST ↔
      ¬(rc = 0 ∧ ("OK").data <:+: stdout.data)) := by
  unfold run_java_test
  by_cases h : rc = 0 ∧ ("OK").data <:+: stdout.data
  · obtain ⟨h0, hm⟩ := h
    subst h0
    have : containsOK stdout = true := by
      simpa [containsOK] using hm
    simp [this, hm]
    decide
  · have hcond : (rc == 0 && containsOK stdout) = false := by
      rcases Decidable.em (rc = 0) with h0 | h0
      · subst h0
        have : ¬ ("OK").data <:+: stdout.data := fun hm => h ⟨rfl, hm⟩
        simp [containsOK, this]
      · simp [h0]
    simp [hcond, h]
    decide

/-! ## C8: no exception propagates out of run_validation -/

/-- C8.  Whenever an exception is raised during backup, patch write,
build or test (`exn.raisedMsg = some m`; for the test-step scenario the
build must have succeeded, since otherwise the test never runs and
nothing is raised), `run_validation` returns normally with status
`FAIL_ERROR` and the exception message as excerpt, and the target
file is restored with the backup removed. -/
theorem C8_exception_boundary (patch orig m : String) (fs : FS) (exn : StepExn)
    (compileOk : Bool) (test : TestExec)
    (htarget : fs.target = some orig) (hbackup : fs.backup = none)
    (hmsg : exn.raisedMsg = some m)
    (hreached : exn = .testRaises m → compileOk = true) :
    run_validation patch fs exn compileOk test =
      ((FAIL_ERROR, some m), { target := some orig, backup := none }) := by
  obtain ⟨t, b⟩ := fs
  simp only at htarget hbackup
  subst htarget hbackup
  cases exn with
  | ok => simp [StepExn.raisedMsg] at hmsg
  | copyRaises k =>
      simp only [StepExn.raisedMsg, Option.some.injEq] at hmsg
      subst hmsg
      simp [run_validation]
  | writeRaises k =>
      simp only [StepExn.raisedMsg, Option.some.injEq] at hmsg
      subst hmsg
      simp [run_validation]
  | compileRaises k =>
      simp only [StepExn.raisedMsg, Option.some.injEq] at hmsg
      subst hmsg
      simp [run_validation]
  | testRaises k =>
      simp only [StepExn.raisedMsg, Option.some.injEq] at hmsg
      subst hmsg
      have hc : compileOk = true := hreached rfl
      subst hc
      simp [run_validation]

/-- Witness for C8 at a concrete input: the build step raises. -/
theorem C8_exception_boundary_witness :
    run_validation "patched" ⟨some "original", none⟩
        (.compileRaises "gradle binary not found") false (.completed 0 "" "") =
      ((FAIL_ERROR, some "gradle binary not found"),
        { target := some "original", backup := none }) :=
  C8_exception_boundary "patched" "original" "gradle binary not found"
    ⟨some "original", none⟩ (.compileRaises "gradle binary not found") false
    (.completed 0 "" "") rfl rfl rfl (by intro h; cases h)

/-! ## C3: excerpt bound and tail truncation -/

/-- Counterexample to C3 as stated: when the test step raises an
exception whose message is 1501 characters long, `run_validation`
stores that whole message as the excerpt of the `FAIL_ERROR` outcome
(validator.py line 56 returns `str(e)` untruncated), so a stored
excerpt that feeds the next planning attempt exceeds 1500 characters. -/
theorem C3_counterexample :
    (run_validation "P" ⟨some "O", none⟩
        (.testRaises (String.mk (List.replicate 1501 'x'))) true (.completed 0 "" "")).1 =
      (FAIL_ERROR, some (String.mk (List.replicate 1501 'x'))) ∧
    1500 < (String.mk (List.replicate 1501 'x')).length := by
  constructor
  · rfl
  · show 1500 < (List.replicate 1501 'x').length
    rw [List.length_replicate]
    omega

/-- C3 as amended: every excerpt produced on a run without an unhandled
exception (no `StepExn` raise and no exception inside the test step) is
at most 1500 characters; and the `FAIL_TEST` excerpt of a completed
test run is exactly the tail of the combined stdout+stderr output —
a suffix, at most 1500 characters, and exactly 1500 when the combined
output is at least that long.  (Excerpts of `FAIL_ERROR` outcomes carry
the raw exception message and are not bounded.) -/
theorem C3_excerpt_bound (patch : String) (fs : FS) (compileOk : Bool) (test : TestExec)
    (hnoraise : ∀ m, test ≠ .raised m) :
    (∀ e, ((run_validation patch fs .ok compileOk test).1).2 = some e →
      e.length ≤ 1500) ∧
    (∀ rc stdout stderr,
      (run_java_test (.completed rc stdout stderr)).1 = FAIL_TEST →
      (run_java_test (.completed rc stdout stderr)).2 =
          some (tail1500 (combinedOutput stdout stderr)) ∧
      (tail1500 (combinedOutput stdout stderr)).length ≤ 1500 ∧
      (tail1500 (combinedOutput stdout stderr)).data <:+ (combinedOutput stdout stderr).data ∧
      (1500 ≤ (combinedOutput stdout stderr).length →
        (tail1500 (combinedOutput stdout stderr)).length = 1500)) := by
  constructor
  · intro e he
    obtain ⟨t, b⟩ := fs
    cases t with
    | none =>
        simp only [run_validation] at he
        rw [Option.some_inj] at he
        subst he
        decide
    | some orig =>
        cases compileOk with
        | false =>
            simp [run_validation] at he
            subst he
            decide
        | true =>
            cases test with
            | raised m => exact absurd rfl (hnoraise m)
            | timedOut =>
                simp [run_validation, run_java_test] at he
                subst he
                decide
            | completed rc stdout stderr =>
                by_cases hc : (rc == 0 && containsOK stdout) = true
                · simp [run_validation, run_java_test, hc] at he
                · rw [Bool.not_eq_true] at hc
                  simp [run_validation, run_java_test, hc] at he
                  subst he
                  exact tail1500_le _
  · intro rc stdout stderr hft
    refine ⟨?_, tail1500_le _, tail1500_suffix _, fun h => tail1500_full _ h⟩
    simp only [run_java_test] at hft ⊢
    by_cases hc : (rc == 0 && containsOK stdout) = true
    · simp [hc] at hft
      exact absurd hft.symm (by decide)
    · rw [Bool.not_eq_true] at hc
      simp [hc]

/-- Witness for the amended C3 at a concrete input: a failed test with
short output, excerpt equal to the (untruncated) combined output. -/
theorem C3_excerpt_bound_witness :
    (run_java_test (.completed 1 "FAILURES!!!" "trace")).2 =
        some (tail1500 (combinedOutput "FAILURES!!!" "trace")) ∧
    (tail1500 (combinedOutput "FAILURES!!!" "trace")).length ≤ 1500 ∧
    (tail1500 (combinedOutput "FAILURES!!!" "trace")).data <:+
        (combinedOutput "FAILURES!!!" "trace").data ∧
    (1500 ≤ (combinedOutput "FAILURES!!!" "trace").length →
        (tail1500 (combinedOutput "FAILURES!!!" "trace")).length = 1500) :=
  (C3_excerpt_bound "P" ⟨some "O", none⟩ true (.completed 1 "FAILURES!!!" "trace")
      (by intro m h; cases h)).2 1 "FAILURES!!!" "trace" (by decide)

/-! ## Step lemmas for the retry loop -/

theorem eq_some_getD_of_falsy_false (o : Option String) (h : falsy o = false) :
    o = some (o.getD "") := by
  cases o with
  | none => simp [falsy] at h
  | some s => rfl

theorem runAttempts_nil (plan0 : Option String)
    (retryPlan : Nat → Option String → Option String → Option String)
    (validate : Nat → String → String × Option String) (s : LoopState) :
    runAttempts plan0 retryPlan validate [] s = (s, []) := rfl

theorem runAttempts_zero_falsy (plan0 : Option String)
    (retryPlan : Nat → Option String → Option String → Option String)
    (validate : Nat → String → String × Option String)
    (rest : List Nat) (s : LoopState) (hf : falsy plan0 = true) :
    runAttempts plan0 retryPlan validate (0 :: rest) s =
      ((runAttempts plan0 retryPlan validate rest
          { s with currentPatch := plan0, validationStatus := FAIL_PLAN }).1,
        Event.planCall ::
          (runAttempts plan0 retryPlan validate rest
            { s with currentPatch := plan0, validationStatus := FAIL_PLAN }).2) := by
  simp [runAttempts, hf]

theorem runAttempts_zero_pass (plan0 : Option String)
    (retryPlan : Nat → Option String → Option String → Option String)
    (validate : Nat → String → String × Option String)
    (rest : List Nat) (s : LoopState) (hf : falsy plan0 = false)
    (hp : (validate 0 (plan0.getD "")).1 = PASS) :
    runAttempts plan0 retryPlan validate (0 :: rest) s =
      (⟨plan0, (validate 0 (plan0.getD "")).1, (validate 0 (plan0.getD "")).2⟩,
        [Event.planCall, Event.validateCall 0 (plan0.getD "")]) := by
  simp [runAttempts, hf, hp]

theorem runAttempts_zero_fail (plan0 : Option String)
    (retryPlan : Nat → Option String → Option String → Option String)
    (validate : Nat → String → String × Option String)
    (rest : List Nat) (s : LoopState) (hf : falsy plan0 = false)
    (hp : (validate 0 (plan0.getD "")).1 ≠ PASS) :
    runAttempts plan0 retryPlan validate (0 :: rest) s =
      ((runAttempts plan0 retryPlan validate rest
          ⟨plan0, (validate 0 (plan0.getD "")).1, (validate 0 (plan0.getD "")).2⟩).1,
        Event.planCall :: Event.validateCall 0 (plan0.getD "") ::
          (runAttempts plan0 retryPlan validate rest
            ⟨plan0, (validate 0 (plan0.getD "")).1, (validate 0 (plan0.getD "")).2⟩).2) := by
  simp [runAttempts, hf, hp]

theorem runAttempts_succ_falsy (plan0 : Option String)
    (retryPlan : Nat → Option String → Option String → Option String)
    (validate : Nat → String → String × Option String)
    (a : Nat) (rest : List Nat) (s : LoopState) (ha : a ≠ 0)
    (hf : falsy (retryPlan a s.currentPatch s.errorMessage) = true) :
    runAttempts plan0 retryPlan validate (a :: rest) s =
      ((runAttempts plan0 retryPlan validate rest
          { s with currentPatch := retryPlan a s.currentPatch s.errorMessage,
                   validationStatus := FAIL_PLAN }).1,
        Event.retryCall a s.currentPatch s.errorMessage ::
          (runAttempts plan0 retryPlan validate rest
            { s with currentPatch := retryPlan a s.currentPatch s.errorMessage,
                     validationStatus := FAIL_PLAN }).2) := by
  simp [runAttempts, ha, hf]

theorem runAttempts_succ_pass (plan0 : Option String)
    (retryPlan : Nat → Option String → Option String → Option String)
    (validate : Nat → String → String × Option String)
    (a : Nat) (rest : List Nat) (s : LoopState) (ha : a ≠ 0)
    (hf : falsy (retryPlan a s.currentPatch s.errorMessage) = false)
    (hp : (validate a ((retryPlan a s.currentPatch s.errorMessage).getD "")).1 = PASS) :
    runAttempts plan0 retryPlan validate (a :: rest) s =
      (⟨retryPlan a s.currentPatch s.errorMessage,
          (validate a ((retryPlan a s.currentPatch s.errorMessage).getD "")).1,
          (validate a ((retryPlan a s.currentPatch s.errorMessage).getD "")).2⟩,
        [Event.retryCall a s.currentPatch s.errorMessage,
          Event.validateCall a ((retryPlan a s.currentPatch s.errorMessage).getD "")]) := by
  simp [runAttempts, ha, hf, hp]

theorem runAttempts_succ_fail (plan0 : Option String)
    (retryPlan : Nat → Option String → Option String → Option String)
    (validate : Nat → String → String × Option String)
    (a : Nat) (rest : List Nat) (s : LoopState) (ha : a ≠ 0)
    (hf : falsy (retryPlan a s.currentPatch s.errorMessage) = false)
    (hp : (validate a ((retryPlan a s.currentPatch s.errorMessage).getD "")).1 ≠ PASS) :
    runAttempts plan0 retryPlan validate (a :: rest) s =
      ((runAttempts plan0 retryPlan validate rest
          ⟨retryPlan a s.currentPatch s.errorMessage,
            (validate a ((retryPlan a s.currentPatch s.errorMessage).getD "")).1,
            (validate a ((retryPlan a s.currentPatch s.errorMessage).getD "")).2⟩).1,
        Event.retryCall a s.currentPatch s.errorMessage ::
          Event.validateCall a ((retryPlan a s.currentPatch s.errorMessage).getD "") ::
          (runAttempts plan0 retryPlan validate rest
            ⟨retryPlan a s.currentPatch s.errorMessage,
              (validate a ((retryPlan a s.currentPatch s.errorMessage).getD "")).1,
              (validate a ((retryPlan a s.currentPatch s.errorMessage).getD "")).2⟩).2) := by
  simp [runAttempts, ha, hf, hp]

/-! ## Trace lemmas for the retry loop -/

theorem events_attemptIdx_mem (plan0 : Option String)
    (retryPlan : Nat → Option String → Option String → Option String)
    (validate : Nat → String → String × Option String) :
    ∀ (as : List Nat) (s : LoopState) (e : Event),
      e ∈ (runAttempts plan0 retryPlan validate as s).2 → e.attemptIdx ∈ as := by
  intro as
  induction as with
  | nil => intro s e he; simp [runAttempts] at he
  | cons a rest ih =>
      intro s e he
      have hev : ∀ fp em, (Event.retryCall a fp em).attemptIdx = a := fun _ _ => rfl
      by_cases h0 : a = 0
      · subst h0
        by_cases hf : falsy plan0 = true
        · rw [runAttempts_zero_falsy plan0 retryPlan validate rest s hf] at he
          rcases List.mem_cons.mp he with h | h
          · subst h; exact List.mem_cons_self _ _
          · exact List.mem_cons_of_mem _ (ih _ e h)
        · rw [Bool.not_eq_true] at hf
          by_cases hp : (validate 0 (plan0.getD "")).1 = PASS
          · rw [runAttempts_zero_pass plan0 retryPlan validate rest s hf hp] at he
            rcases List.mem_cons.mp he with h | h
            · subst h; exact List.mem_cons_self _ _
            · rcases List.mem_cons.mp h with h2 | h2
              · subst h2; exact List.mem_cons_self _ _
              · simp at h2
          · rw [runAttempts_zero_fail plan0 retryPlan validate rest s hf hp] at he
            rcases List.mem_cons.mp he with h | h
            · subst h; exact List.mem_cons_self _ _
            · rcases List.mem_cons.mp h with h2 | h2
              · subst h2; exact List.mem_cons_self _ _
              · exact List.mem_cons_of_mem _ (ih _ e h2)
      · by_cases hf : falsy (retryPlan a s.currentPatch s.errorMessage) = true
        · rw [runAttempts_succ_falsy plan0 retryPlan validate a rest s h0 hf] at he
          rcases List.mem_cons.mp he with h | h
          · subst h; exact List.mem_cons_self _ _
          · exact List.mem_cons_of_mem _ (ih _ e h)
        · rw [Bool.not_eq_true] at hf
          by_cases hp :
              (validate a ((retryPlan a s.currentPatch s.errorMessage).getD "")).1 = PASS
          · rw [runAttempts_succ_pass plan0 retryPlan validate a rest s h0 hf hp] at he
            rcases List.mem_cons.mp he with h | h
            · subst h; exact List.mem_cons_self _ _
            · rcases List.mem_cons.mp h with h2 | h2
              · subst h2; exact List.mem_cons_self _ _
              · simp at h2
          · rw [runAttempts_succ_fail plan0 retryPlan validate a rest s h0 hf hp] at he
            rcases List.mem_cons.mp he with h | h
            · subst h; exact List.mem_cons_self _ _
            · rcases List.mem_cons.mp h with h2 | h2
              · subst h2; exact List.mem_cons_self _ _
              · exact List.mem_cons_of_mem _ (ih _ e h2)

theorem countValidate_cons_not (e : Event) (l : List Event) (h : e.isValidate = false) :
    countValidate (e :: l) = countValidate l := by
  simp [countValidate, List.countP_cons, h]

theorem countValidate_cons_validate (a : Nat) (p : String) (l : List Event) :
    countValidate (Event.validateCall a p :: l) = countValidate l + 1 := by
  simp [countValidate, List.countP_cons, Event.isValidate]

theorem countValidate_le (plan0 : Option String)
    (retryPlan : Nat → Option String → Option String → Option String)
    (validate : Nat → String → String × Option String) :
    ∀ (as : List Nat) (s : LoopState),
      countValidate (runAttempts plan0 retryPlan validate as s).2 ≤ as.length := by
  intro as
  induction as with
  | nil => intro s; simp [runAttempts, countValidate]
  | cons a rest ih =>
      intro s
      by_cases h0 : a = 0
      · subst h0
        by_cases hf : falsy plan0 = true
        · rw [runAttempts_zero_falsy plan0 retryPlan validate rest s hf]
          have h1 := ih { s with currentPatch := plan0, validationStatus := FAIL_PLAN }
          simp [countValidate, List.countP_cons, Event.isValidate] at h1 ⊢
          omega
        · rw [Bool.not_eq_true] at hf
          by_cases hp : (validate 0 (plan0.getD "")).1 = PASS
          · rw [runAttempts_zero_pass plan0 retryPlan validate rest s hf hp]
            simp [countValidate, List.countP_cons, Event.isValidate]
          · rw [runAttempts_zero_fail plan0 retryPlan validate rest s hf hp]
            have h1 := ih ⟨plan0, (validate 0 (plan0.getD "")).1, (validate 0 (plan0.getD "")).2⟩
            simp [countValidate, List.countP_cons, Event.isValidate] at h1 ⊢
            omega
      · by_cases hf : falsy (retryPlan a s.currentPatch s.errorMessage) = true
        · rw [runAttempts_succ_falsy plan0 retryPlan validate a rest s h0 hf]
          have h1 := ih { s with currentPatch := retryPlan a s.currentPatch s.errorMessage,
                                 validationStatus := FAIL_PLAN }
          simp [countValidate, List.countP_cons, Event.isValidate] at h1 ⊢
          omega
        · rw [Bool.not_eq_true] at hf
          by_cases hp :
              (validate a ((retryPlan a s.currentPatch s.errorMessage).getD "")).1 = PASS
          · rw [runAttempts_succ_pass plan0 retryPlan validate a rest s h0 hf hp]
            simp [countValidate, List.countP_cons, Event.isValidate]
          · rw [runAttempts_succ_fail plan0 retryPlan validate a rest s h0 hf hp]
            have h1 := ih ⟨retryPlan a s.currentPatch s.errorMessage,
              (validate a ((retryPlan a s.currentPatch s.errorMessage).getD "")).1,
              (validate a ((retryPlan a s.currentPatch s.errorMessage).getD "")).2⟩
            simp [countValidate, List.countP_cons, Event.isValidate] at h1 ⊢
            omega

theorem runAttempts_stop_on_pass (plan0 : Option String)
    (retryPlan : Nat → Option String → Option String → Option String)
    (validate : Nat → String → String × Option String) :
    ∀ (as : List Nat) (s : LoopState) (i : Nat) (p : String),
      List.Pairwise (· < ·) as →
      Event.validateCall i p ∈ (runAttempts plan0 retryPlan validate as s).2 →
      (validate i p).1 = PASS →
      (runAttempts plan0 retryPlan validate as s).1.validationStatus = PASS ∧
      (runAttempts plan0 retryPlan validate as s).1.currentPatch = some p ∧
      ∀ e ∈ (runAttempts plan0 retryPlan validate as s).2, e.attemptIdx ≤ i := by
  intro as
  induction as with
  | nil => intro s i p _ hmem; simp [runAttempts] at hmem
  | cons a rest ih =>
      intro s i p hpw hmem hpass
      obtain ⟨ha, hpwrest⟩ := List.pairwise_cons.mp hpw
      by_cases h0 : a = 0
      · subst h0
        by_cases hf : falsy plan0 = true
        · rw [runAttempts_zero_falsy plan0 retryPlan validate rest s hf] at hmem ⊢
          rcases List.mem_cons.mp hmem with h | h
          · exact absurd h (by simp)
          · have hlt : 0 < i := by
              have := events_attemptIdx_mem plan0 retryPlan validate rest _ _ h
              exact ha i this
            obtain ⟨h1, h2, h3⟩ := ih _ i p hpwrest h hpass
            refine ⟨h1, h2, ?_⟩
            intro e he
            rcases List.mem_cons.mp he with he1 | he1
            · subst he1; exact Nat.le_of_lt hlt
            · exact h3 e he1
        · rw [Bool.not_eq_true] at hf
          by_cases hp : (validate 0 (plan0.getD "")).1 = PASS
          · rw [runAttempts_zero_pass plan0 retryPlan validate rest s hf hp] at hmem ⊢
            rcases List.mem_cons.mp hmem with h | h
            · exact absurd h (by simp)
            · rcases List.mem_cons.mp h with h2 | h2
              · injection h2 with hi hpe
                subst hi hpe
                refine ⟨hp, eq_some_getD_of_falsy_false plan0 hf, ?_⟩
                intro e he
                rcases List.mem_cons.mp he with he1 | he1
                · subst he1; exact Nat.le_refl 0
                · rcases List.mem_cons.mp he1 with he2 | he2
                  · subst he2; exact Nat.le_refl 0
                  · simp at he2
              · simp at h2
          · rw [runAttempts_zero_fail plan0 retryPlan validate rest s hf hp] at hmem ⊢
            rcases List.mem_cons.mp hmem with h | h
            · exact absurd h (by simp)
            · rcases List.mem_cons.mp h with h2 | h2
              · exfalso
                injection h2 with hi hpe
                subst hi hpe
                exact hp hpass
              · have hlt : 0 < i := by
                  have := events_attemptIdx_mem plan0 retryPlan validate rest _ _ h2
                  exact ha i this
                obtain ⟨h1, h2b, h3⟩ := ih _ i p hpwrest h2 hpass
                refine ⟨h1, h2b, ?_⟩
                intro e he
                rcases List.mem_cons.mp he with he1 | he1
                · subst he1; exact Nat.le_of_lt hlt
                · rcases List.mem_cons.mp he1 with he2 | he2
                  · subst he2; exact Nat.le_of_lt hlt
                  · exact h3 e he2
      · by_cases hf : falsy (retryPlan a s.currentPatch s.errorMessage) = true
        · rw [runAttempts_succ_falsy plan0 retryPlan validate a rest s h0 hf] at hmem ⊢
          rcases List.mem_cons.mp hmem with h | h
          · exact absurd h (by simp)
          · have hlt : a < i := by
              have := events_attemptIdx_mem plan0 retryPlan validate rest _ _ h
              exact ha i this
            obtain ⟨h1, h2, h3⟩ := ih _ i p hpwrest h hpass
            refine ⟨h1, h2, ?_⟩
            intro e he
            rcases List.mem_cons.mp he with he1 | he1
            · subst he1; exact Nat.le_of_lt hlt
            · exact h3 e he1
        · rw [Bool.not_eq_true] at hf
          by_cases hp :
              (validate a ((retryPlan a s.currentPatch s.errorMessage).getD "")).1 = PASS
          · rw [runAttempts_succ_pass plan0 retryPlan validate a rest s h0 hf hp] at hmem ⊢
            rcases List.mem_cons.mp hmem with h | h
            · exact absurd h (by simp)
            · rcases List.mem_cons.mp h with h2 | h2
              · injection h2 with hi hpe
                subst hi hpe
                refine ⟨hp, eq_some_getD_of_falsy_false _ hf, ?_⟩
                intro e he
                rcases List.mem_cons.mp he with he1 | he1
                · subst he1; exact Nat.le_refl _
                · rcases List.mem_cons.mp he1 with he2 | he2
                  · subst he2; exact Nat.le_refl _
                  · simp at he2
              · simp at h2
          · rw [runAttempts_succ_fail plan0 retryPlan validate a rest s h0 hf hp] at hmem ⊢
            rcases List.mem_cons.mp hmem with h | h
            · exact absurd h (by simp)
            · rcases List.mem_cons.mp h with h2 | h2
              · exfalso
                injection h2 with hi hpe
                subst hi hpe
                exact hp hpass
              · have hlt : a < i := by
                  have := events_attemptIdx_mem plan0 retryPlan validate rest _ _ h2
                  exact ha i this
                obtain ⟨h1, h2b, h3⟩ := ih _ i p hpwrest h2 hpass
                refine ⟨h1, h2b, ?_⟩
                intro e he
                rcases List.mem_cons.mp he with he1 | he1
                · subst he1; exact Nat.le_of_lt hlt
                · rcases List.mem_cons.mp he1 with he2 | he2
                  · subst he2; exact Nat.le_of_lt hlt
                  · exact h3 e he2

theorem runAttempts_field_invariant (plan0 : Option String)
    (retryPlan : Nat → Option String → Option String → Option String)
    (validate : Nat → String → String × Option String)
    (hv : ∀ i p, ((validate i p).1 = PASS → (validate i p).2 = none) ∧
                 ((validate i p).1 ≠ PASS → ((validate i p).2).isSome = true)) :
    ∀ (as : List Nat) (s : LoopState),
      (s.errorMessage.isSome = true ↔ s.validationStatus ≠ PASS) →
      s.validationStatus ≠ PASS →
      (((runAttempts plan0 retryPlan validate as s).1.errorMessage.isSome = true ↔
        (runAttempts plan0 retryPlan validate as s).1.validationStatus ≠ PASS) ∧
      ((runAttempts plan0 retryPlan validate as s).1.validationStatus = PASS →
        ∃ q, (runAttempts plan0 retryPlan validate as s).1.currentPatch = some q)) := by
  intro as
  induction as with
  | nil =>
      intro s hinv hne
      rw [runAttempts_nil]
      exact ⟨hinv, fun h => absurd h hne⟩
  | cons a rest ih =>
      intro s hinv hne
      have hFPne : FAIL_PLAN ≠ PASS := by decide
      have hplanInv : ∀ o : Option String,
          (({ s with currentPatch := o, validationStatus := FAIL_PLAN } :
              LoopState).errorMessage.isSome = true ↔
          ({ s with currentPatch := o, validationStatus := FAIL_PLAN } :
              LoopState).validationStatus ≠ PASS) :=
        fun _ => ⟨fun _ => hFPne, fun _ => hinv.mpr hne⟩
      by_cases h0 : a = 0
      · subst h0
        by_cases hf : falsy plan0 = true
        · rw [runAttempts_zero_falsy plan0 retryPlan validate rest s hf]
          exact ih _ (hplanInv plan0) hFPne
        · rw [Bool.not_eq_true] at hf
          by_cases hp : (validate 0 (plan0.getD "")).1 = PASS
          · rw [runAttempts_zero_pass plan0 retryPlan validate rest s hf hp]
            have hnone := (hv 0 (plan0.getD "")).1 hp
            refine ⟨?_, fun _ => ⟨plan0.getD "", eq_some_getD_of_falsy_false plan0 hf⟩⟩
            simp [hnone, hp]
          · rw [runAttempts_zero_fail plan0 retryPlan validate rest s hf hp]
            have hsome := (hv 0 (plan0.getD "")).2 hp
            exact ih _ (by simpa [hsome] using hp) hp
      · by_cases hf : falsy (retryPlan a s.currentPatch s.errorMessage) = true
        · rw [runAttempts_succ_falsy plan0 retryPlan validate a rest s h0 hf]
          exact ih _ (hplanInv _) hFPne
        · rw [Bool.not_eq_true] at hf
          by_cases hp :
              (validate a ((retryPlan a s.currentPatch s.errorMessage).getD "")).1 = PASS
          · rw [runAttempts_succ_pass plan0 retryPlan validate a rest s h0 hf hp]
            have hnone := (hv a ((retryPlan a s.currentPatch s.errorMessage).getD "")).1 hp
            refine ⟨?_, fun _ =>
              ⟨(retryPlan a s.currentPatch s.errorMessage).getD "",
                eq_some_getD_of_falsy_false _ hf⟩⟩
            simp [hnone, hp]
          · rw [runAttempts_succ_fail plan0 retryPlan validate a rest s h0 hf hp]
            have hsome := (hv a ((retryPlan a s.currentPatch s.errorMessage).getD "")).2 hp
            exact ih _ (by simpa [hsome] using hp) hp

/-! ## C5: early success stops the loop -/

/-- C5.  If the validation of some attempt `i` (with attempt budget
remaining) returns `PASS`, then every planner and validation call in
the run belongs to an attempt `≤ i` — no later attempt is planned or
validated — and the emitted result has final status `PASS` with
accepted patch equal to the patch of attempt `i`. -/
theorem C5_early_success (algo code : String) (mB mA : Option String)
    (plan0 : Option String)
    (retryPlan : Nat → Option String → Option String → Option String)
    (validate : Nat → String → String × Option String) (i : Nat) (p : String)
    (_hi : i < MAX_RETRIES - 1)
    (hmem : Event.validateCall i p ∈
      (run_fix algo (some code) mB mA plan0 retryPlan validate).2)
    (hpass : (validate i p).1 = PASS) :
    (run_fix algo (some code) mB mA plan0 retryPlan validate).1.status = PASS ∧
    (run_fix algo (some code) mB mA plan0 retryPlan validate).1.patch = some p ∧
    ∀ e ∈ (run_fix algo (some code) mB mA plan0 retryPlan validate).2,
      e.attemptIdx ≤ i := by
  have hpw : List.Pairwise (· < ·) (List.range MAX_RETRIES) := List.pairwise_lt_range _
  have hmem2 : Event.validateCall i p ∈
      (runAttempts plan0 retryPlan validate (List.range MAX_RETRIES) initialLoopState).2 :=
    hmem
  obtain ⟨h1, h2, h3⟩ :=
    runAttempts_stop_on_pass plan0 retryPlan validate _ _ i p hpw hmem2 hpass
  refine ⟨h1, ?_, h3⟩
  show (if (runAttempts plan0 retryPlan validate (List.range MAX_RETRIES)
      initialLoopState).1.validationStatus = PASS
    then (runAttempts plan0 retryPlan validate (List.range MAX_RETRIES)
      initialLoopState).1.currentPatch else none) = some p
  rw [if_pos h1]
  exact h2

/-- Witness for C5: attempt 0 fails, attempt 1 passes; the run stops at
attempt 1 with the patch of attempt 1 accepted. -/
theorem C5_early_success_witness :
    (run_fix "lis" (some "code") none none (some "A") (fun _ _ _ => some "B")
        (fun i _ => if i = 0 then (FAIL_TEST, some "e0") else (PASS, none))).1.status = PASS ∧
    (run_fix "lis" (some "code") none none (some "A") (fun _ _ _ => some "B")
        (fun i _ => if i = 0 then (FAIL_TEST, some "e0") else (PASS, none))).1.patch =
      some "B" ∧
    ∀ e ∈ (run_fix "lis" (some "code") none none (some "A") (fun _ _ _ => some "B")
        (fun i _ => if i = 0 then (FAIL_TEST, some "e0") else (PASS, none))).2,
      e.attemptIdx ≤ 1 :=
  C5_early_success "lis" "code" none none (some "A") (fun _ _ _ => some "B")
    (fun i _ => if i = 0 then (FAIL_TEST, some "e0") else (PASS, none)) 1 "B"
    (by decide) (by decide) (by decide)

/-! ## C7: presence of acceptedPatch and lastErrorMessage in the result -/

/-- Counterexample to C7 as stated: on the `FAIL_LOAD` path (the source
file cannot be read) `run_fix` builds its result with
`_create_result(name, "FAIL_LOAD", None, None)` (agent.py line 45),
leaving the `error_message` field at its `None` default — so the final
status is not `PASS` and yet the last-error-message field is absent,
refuting the claimed iff. -/
theorem C7_counterexample :
    (run_fix "bitcount" none none none (some "A") (fun _ _ _ => some "B")
        (fun _ _ => (FAIL_TEST, some "e"))).1.status = FAIL_LOAD ∧
    (run_fix "bitcount" none none none (some "A") (fun _ _ _ => some "B")
        (fun _ _ => (FAIL_TEST, some "e"))).1.status ≠ PASS ∧
    (run_fix "bitcount" none none none (some "A") (fun _ _ _ => some "B")
        (fun _ _ => (FAIL_TEST, some "e"))).1.errorMessage = none := by
  refine ⟨rfl, ?_, rfl⟩
  decide

/-- C7 as amended: provided the validator returns an excerpt exactly on
non-`PASS` outcomes (which `run_validation` does), the emitted result
of a run whose source file was readable has `patch` present iff the
final status is `PASS`, and `errorMessage` present iff the final status
is not `PASS`; on the `FAIL_LOAD` path, however, `errorMessage` is
absent even though the status is not `PASS`. -/
theorem C7_result_fields (algo code : String) (mB mA : Option String)
    (plan0 : Option String)
    (retryPlan : Nat → Option String → Option String → Option String)
    (validate : Nat → String → String × Option String)
    (hv : ∀ i p, ((validate i p).1 = PASS → (validate i p).2 = none) ∧
                 ((validate i p).1 ≠ PASS → ((validate i p).2).isSome = true)) :
    ((run_fix algo (some code) mB mA plan0 retryPlan validate).1.patch.isSome = true ↔
      (run_fix algo (some code) mB mA plan0 retryPlan validate).1.status = PASS) ∧
    ((run_fix algo (some code) mB mA plan0 retryPlan validate).1.errorMessage.isSome = true ↔
      (run_fix algo (some code) mB mA plan0 retryPlan validate).1.status ≠ PASS) ∧
    (run_fix algo none mB mA plan0 retryPlan validate).1.status = FAIL_LOAD ∧
    (run_fix algo none mB mA plan0 retryPlan validate).1.errorMessage = none := by
  have hinv0 : initialLoopState.errorMessage.isSome = true ↔
      initialLoopState.validationStatus ≠ PASS := by
    constructor
    · intro _
      decide
    · intro _
      rfl
  have hne0 : initialLoopState.validationStatus ≠ PASS := by decide
  obtain ⟨hiff, hpassq⟩ := runAttempts_field_invariant plan0 retryPlan validate hv
    (List.range MAX_RETRIES) initialLoopState hinv0 hne0
  have hpatch : (run_fix algo (some code) mB mA plan0 retryPlan validate).1.patch =
      (if (runAttempts plan0 retryPlan validate (List.range MAX_RETRIES)
          initialLoopState).1.validationStatus = PASS
        then (runAttempts plan0 retryPlan validate (List.range MAX_RETRIES)
          initialLoopState).1.currentPatch else none) := rfl
  have hstatus : (run_fix algo (some code) mB mA plan0 retryPlan validate).1.status =
      (runAttempts plan0 retryPlan validate (List.range MAX_RETRIES)
        initialLoopState).1.validationStatus := rfl
  refine ⟨?_, hiff, rfl, rfl⟩
  rw [hpatch, hstatus]
  by_cases h : (runAttempts plan0 retryPlan validate (List.range MAX_RETRIES)
      initialLoopState).1.validationStatus = PASS
  · obtain ⟨q, hq⟩ := hpassq h
    rw [if_pos h, hq]
    simp [h]
  · rw [if_neg h]
    simp [h]

/-- Witness for the amended C7 at a concrete input: a planner whose
patch always fails validation; final status `FAIL_TEST`, no accepted
patch, error message present, and `FAIL_LOAD` run with no error
message. -/
theorem C7_result_fields_witness :
    ((run_fix "lis" (some "code") none none (some "A") (fun _ _ _ => some "B")
        (fun _ _ => (FAIL_TEST, some "boom"))).1.patch.isSome = true ↔
      (run_fix "lis" (some "code") none none (some "A") (fun _ _ _ => some "B")
        (fun _ _ => (FAIL_TEST, some "boom"))).1.status = PASS) ∧
    ((run_fix "lis" (some "code") none none (some "A") (fun _ _ _ => some "B")
        (fun _ _ => (FAIL_TEST, some "boom"))).1.errorMessage.isSome = true ↔
      (run_fix "lis" (some "code") none none (some "A") (fun _ _ _ => some "B")
        (fun _ _ => (FAIL_TEST, some "boom"))).1.status ≠ PASS) ∧
    (run_fix "lis" none none none (some "A") (fun _ _ _ => some "B")
        (fun _ _ => (FAIL_TEST, some "boom"))).1.status = FAIL_LOAD ∧
    (run_fix "lis" none none none (some "A") (fun _ _ _ => some "B")
        (fun _ _ => (FAIL_TEST, some "boom"))).1.errorMessage = none :=
  C7_result_fields "lis" "code" none none (some "A") (fun _ _ _ => some "B")
    (fun _ _ => (FAIL_TEST, some "boom"))
    (fun _ _ => ⟨fun h => absurd h (show FAIL_TEST ≠ PASS by decide), fun _ => rfl⟩)

/-! ## C10: the initial sentinel and the all-plans-fail path -/

/-- C10.  With a planner that produces no patch on any attempt
(initial plan `None`, retry plans `None`): the attempt-1 retry planner
is invoked with failed patch `None` and the literal sentinel
`"No patch generated yet."` as error context; the run ends with final
status `FAIL_PLAN` and that sentinel as error message; and no
validation call ever occurs. -/
theorem C10_plan_failure_sentinel (algo code : String) (mB mA : Option String)
    (retryPlan : Nat → Option String → Option String → Option String)
    (validate : Nat → String → String × Option String)
    (hrp : ∀ i fp em, retryPlan i fp em = none) :
    Event.retryCall 1 none (some "No patch generated yet.") ∈
      (run_fix algo (some code) mB mA none retryPlan validate).2 ∧
    (run_fix algo (some code) mB mA none retryPlan validate).1.status = FAIL_PLAN ∧
    (run_fix algo (some code) mB mA none retryPlan validate).1.errorMessage =
      some "No patch generated yet." ∧
    ∀ e ∈ (run_fix algo (some code) mB mA none retryPlan validate).2,
      e.isValidate = false := by
  have hrun : runAttempts none retryPlan validate (List.range MAX_RETRIES) initialLoopState =
      (⟨none, FAIL_PLAN, some "No patch generated yet."⟩,
        [Event.planCall,
         Event.retryCall 1 none (some "No patch generated yet."),
         Event.retryCall 2 none (some "No patch generated yet.")]) := by
    have hr : List.range MAX_RETRIES = [0, 1, 2] := rfl
    rw [hr]
    rw [runAttempts_zero_falsy none retryPlan validate [1, 2] initialLoopState rfl]
    rw [runAttempts_succ_falsy none retryPlan validate 1 [2] _ (by decide) (by rw [hrp]; rfl)]
    rw [runAttempts_succ_falsy none retryPlan validate 2 [] _ (by decide) (by rw [hrp]; rfl)]
    rw [runAttempts_nil]
    simp only [hrp]
    rfl
  have hev : (run_fix algo (some code) mB mA none retryPlan validate).2 =
      (runAttempts none retryPlan validate (List.range MAX_RETRIES) initialLoopState).2 := rfl
  have hstatus : (run_fix algo (some code) mB mA none retryPlan validate).1.status =
      (runAttempts none retryPlan validate (List.range MAX_RETRIES)
        initialLoopState).1.validationStatus := rfl
  have herr : (run_fix algo (some code) mB mA none retryPlan validate).1.errorMessage =
      (runAttempts none retryPlan validate (List.range MAX_RETRIES)
        initialLoopState).1.errorMessage := rfl
  refine ⟨?_, ?_, ?_, ?_⟩
  · rw [hev, hrun]
    simp
  · rw [hstatus, hrun]
  · rw [herr, hrun]
  · rw [hev, hrun]
    intro e he
    rcases List.mem_cons.mp he with h | h
    · subst h; rfl
    · rcases List.mem_cons.mp h with h2 | h2
      · subst h2; rfl
      · rcases List.mem_cons.mp h2 with h3 | h3
        · subst h3; rfl
        · simp at h3

/-- Witness for C10 with a concrete always-failing planner. -/
theorem C10_plan_failure_sentinel_witness :
    Event.retryCall 1 none (some "No patch generated yet.") ∈
      (run_fix "lis" (some "code") none none none (fun _ _ _ => none)
        (fun _ _ => (FAIL_TEST, some "e"))).2 ∧
    (run_fix "lis" (some "code") none none none (fun _ _ _ => none)
        (fun _ _ => (FAIL_TEST, some "e"))).1.status = FAIL_PLAN ∧
    (run_fix "lis" (some "code") none none none (fun _ _ _ => none)
        (fun _ _ => (FAIL_TEST, some "e"))).1.errorMessage =
      some "No patch generated yet." ∧
    ∀ e ∈ (run_fix "lis" (some "code") none none none (fun _ _ _ => none)
        (fun _ _ => (FAIL_TEST, some "e"))).2, e.isValidate = false :=
  C10_plan_failure_sentinel "lis" "code" none none (fun _ _ _ => none)
    (fun _ _ => (FAIL_TEST, some "e")) (fun _ _ _ => rfl)

/-! ## C6: what stops the attempt sequence -/

/-- Counterexample to C6 as stated: the claim says a planner call that
produces no patch ends the run with no further attempts, but in
agent.py line 79 a falsy patch runs `continue`, not `break`.  With an
initial planner returning `None`, a retry planner always returning
`"B"` and an always-failing validator, the trace contains a retry-plan
call and a validation call at attempt 1 — after the failed attempt-0
planner call — and the run continues to final status `FAIL_TEST`. -/
theorem C6_counterexample :
    Event.retryCall 1 none (some "No patch generated yet.") ∈
      (run_fix "lis" (some "code") none none none (fun _ _ _ => some "B")
        (fun _ _ => (FAIL_TEST, some "e"))).2 ∧
    Event.validateCall 1 "B" ∈
      (run_fix "lis" (some "code") none none none (fun _ _ _ => some "B")
        (fun _ _ => (FAIL_TEST, some "e"))).2 ∧
    (run_fix "lis" (some "code") none none none (fun _ _ _ => some "B")
        (fun _ _ => (FAIL_TEST, some "e"))).1.status = FAIL_TEST := by
  refine ⟨?_, ?_, rfl⟩ <;> decide

/-- C6 as amended: attempts stop as soon as an outcome is `PASS`
(see the early-success property) or the attempt index reaches
`MAX_RETRIES - 1` — every traced call belongs to an attempt index
below `MAX_RETRIES` — but a planner call that produces no patch does
NOT end the run: it records `FAIL_PLAN` and proceeds, so when the
initial planner fails and budget remains, the attempt-1 retry-plan
call and (when its patch is non-falsy) the attempt-1 validation call
still occur. -/
theorem C6_stop_conditions (algo code : String) (mB mA : Option String)
    (retryPlan : Nat → Option String → Option String → Option String)
    (validate : Nat → String → String × Option String)
    (hq : falsy (retryPlan 1 none (some "No patch generated yet.")) = false) :
    (∀ e ∈ (run_fix algo (some code) mB mA none retryPlan validate).2,
      e.attemptIdx < MAX_RETRIES) ∧
    Event.retryCall 1 none (some "No patch generated yet.") ∈
      (run_fix algo (some code) mB mA none retryPlan validate).2 ∧
    Event.validateCall 1 ((retryPlan 1 none (some "No patch generated yet.")).getD "") ∈
      (run_fix algo (some code) mB mA none retryPlan validate).2 := by
  have hkey : Event.retryCall 1 none (some "No patch generated yet.") ∈
      (runAttempts none retryPlan validate [0, 1, 2] initialLoopState).2 ∧
      Event.validateCall 1 ((retryPlan 1 none (some "No patch generated yet.")).getD "") ∈
      (runAttempts none retryPlan validate [0, 1, 2] initialLoopState).2 := by
    have hsent : initialLoopState.errorMessage = some "No patch generated yet." := rfl
    rw [runAttempts_zero_falsy none retryPlan validate [1, 2] initialLoopState rfl]
    by_cases hp : (validate 1
        ((retryPlan 1 none (some "No patch generated yet.")).getD "")).1 = PASS
    · rw [runAttempts_succ_pass none retryPlan validate 1 [2] _ (by decide) hq hp]
      constructor <;> simp [hsent]
    · rw [runAttempts_succ_fail none retryPlan validate 1 [2] _ (by decide) hq hp]
      constructor <;> simp [hsent]
  refine ⟨?_, hkey.1, hkey.2⟩
  intro e he
  have hme : e ∈ (runAttempts none retryPlan validate (List.range MAX_RETRIES)
      initialLoopState).2 := he
  have := events_attemptIdx_mem none retryPlan validate (List.range MAX_RETRIES)
    initialLoopState e hme
  exact List.mem_range.mp this

/-- Witness for the amended C6 with a concrete retry planner. -/
theorem C6_stop_conditions_witness :
    (∀ e ∈ (run_fix "lis" (some "code") none none none (fun _ _ _ => some "B")
        (fun _ _ => (FAIL_TEST, some "e"))).2, e.attemptIdx < MAX_RETRIES) ∧
    Event.retryCall 1 none (some "No patch generated yet.") ∈
      (run_fix "lis" (some "code") none none none (fun _ _ _ => some "B")
        (fun _ _ => (FAIL_TEST, some "e"))).2 ∧
    Event.validateCall 1 (((fun (_ : Nat) (_ _ : Option String) => some "B") 1 none
        (some "No patch generated yet.")).getD "") ∈
      (run_fix "lis" (some "code") none none none (fun _ _ _ => some "B")
        (fun _ _ => (FAIL_TEST, some "e"))).2 :=
  C6_stop_conditions "lis" "code" none none (fun _ _ _ => some "B")
    (fun _ _ => (FAIL_TEST, some "e")) (by decide)

theorem runAttempts_allfail (plan0 : Option String)
    (retryPlan : Nat → Option String → Option String → Option String)
    (validate : Nat → String → String × Option String)
    (hp0 : falsy plan0 = false)
    (hrp : ∀ i fp em, falsy (retryPlan i fp em) = false)
    (hnp : ∀ i p, (validate i p).1 ≠ PASS) :
    ∀ (as : List Nat) (s : LoopState),
      countValidate (runAttempts plan0 retryPlan validate as s).2 = as.length ∧
      (∀ b, as.getLast? = some b →
        ∃ pb, (runAttempts plan0 retryPlan validate as s).2.getLast? =
            some (Event.validateCall b pb) ∧
          (runAttempts plan0 retryPlan validate as s).1.validationStatus = (validate b pb).1 ∧
          (runAttempts plan0 retryPlan validate as s).1.errorMessage = (validate b pb).2) := by
  intro as
  induction as with
  | nil =>
      intro s
      rw [runAttempts_nil]
      exact ⟨rfl, fun b hb => by simp at hb⟩
  | cons a rest ih =>
      intro s
      by_cases h0 : a = 0
      · subst h0
        rw [runAttempts_zero_fail plan0 retryPlan validate rest s hp0
          (hnp 0 (plan0.getD ""))]
        obtain ⟨ihc, ihl⟩ := ih ⟨plan0, (validate 0 (plan0.getD "")).1,
          (validate 0 (plan0.getD "")).2⟩
        constructor
        · simp only [countValidate, List.countP_cons, Event.isValidate] at ihc ⊢
          simp [ihc]
        · intro b hb
          cases rest with
          | nil =>
              simp only [List.getLast?_singleton, Option.some.injEq] at hb
              subst hb
              rw [runAttempts_nil]
              exact ⟨plan0.getD "", rfl, rfl, rfl⟩
          | cons c rest2 =>
              rw [List.getLast?_cons_cons] at hb
              obtain ⟨pb, hlast, hst, herr⟩ := ihl b hb
              refine ⟨pb, ?_, hst, herr⟩
              rw [List.getLast?_cons_cons]
              cases hr2 : (runAttempts plan0 retryPlan validate (c :: rest2)
                  ⟨plan0, (validate 0 (plan0.getD "")).1, (validate 0 (plan0.getD "")).2⟩).2 with
              | nil => rw [hr2] at hlast; simp at hlast
              | cons d t =>
                  rw [hr2] at hlast
                  rw [List.getLast?_cons_cons]
                  exact hlast
      · rw [runAttempts_succ_fail plan0 retryPlan validate a rest s h0
          (hrp a s.currentPatch s.errorMessage)
          (hnp a ((retryPlan a s.currentPatch s.errorMessage).getD ""))]
        obtain ⟨ihc, ihl⟩ := ih ⟨retryPlan a s.currentPatch s.errorMessage,
          (validate a ((retryPlan a s.currentPatch s.errorMessage).getD "")).1,
          (validate a ((retryPlan a s.currentPatch s.errorMessage).getD "")).2⟩
        constructor
        · simp only [countValidate, List.countP_cons, Event.isValidate] at ihc ⊢
          simp [ihc]
        · intro b hb
          cases rest with
          | nil =>
              simp only [List.getLast?_singleton, Option.some.injEq] at hb
              subst hb
              rw [runAttempts_nil]
              exact ⟨_, rfl, rfl, rfl⟩
          | cons c rest2 =>
              rw [List.getLast?_cons_cons] at hb
              obtain ⟨pb, hlast, hst, herr⟩ := ihl b hb
              refine ⟨pb, ?_, hst, herr⟩
              rw [List.getLast?_cons_cons]
              cases hr2 : (runAttempts plan0 retryPlan validate (c :: rest2)
                  ⟨retryPlan a s.currentPatch s.errorMessage,
                    (validate a ((retryPlan a s.currentPatch s.errorMessage).getD "")).1,
                    (validate a ((retryPlan a s.currentPatch s.errorMessage).getD "")).2⟩).2 with
              | nil => rw [hr2] at hlast; simp at hlast
              | cons d t =>
                  rw [hr2] at hlast
                  rw [List.getLast?_cons_cons]
                  exact hlast

/-! ## C4: the retry bound -/

/-- C4.  For every run, at most `MAX_RETRIES` validation attempts
occur (the loop is a structurally terminating fold over
`range MAX_RETRIES`); and in the particular scenario where the planner
returns a usable patch on every call and the validator returns
`FAIL_TEST` on every call, exactly 3 validation attempts occur, the
final status is `FAIL_TEST`, and the emitted error message is the
excerpt of the last (third) validation, whose call closes the trace. -/
theorem C4_retry_bound (algo code : String) (mB mA : Option String)
    (plan0 : Option String)
    (retryPlan : Nat → Option String → Option String → Option String)
    (validate : Nat → String → String × Option String)
    (hp0 : falsy plan0 = false)
    (hrp : ∀ i fp em, falsy (retryPlan i fp em) = false)
    (hv : ∀ i p, (validate i p).1 = FAIL_TEST) :
    (∀ (rr p0 : Option String)
        (rp : Nat → Option String → Option String → Option String)
        (v : Nat → String → String × Option String),
      countValidate (run_fix algo rr mB mA p0 rp v).2 ≤ MAX_RETRIES) ∧
    countValidate (run_fix algo (some code) mB mA plan0 retryPlan validate).2 =
      MAX_RETRIES ∧
    (run_fix algo (some code) mB mA plan0 retryPlan validate).1.status = FAIL_TEST ∧
    ∃ p2 : String,
      ((run_fix algo (some code) mB mA plan0 retryPlan validate).2).getLast? =
        some (Event.validateCall 2 p2) ∧
      (run_fix algo (some code) mB mA plan0 retryPlan validate).1.errorMessage =
        (validate 2 p2).2 := by
  have hnp : ∀ i p, (validate i p).1 ≠ PASS := by
    intro i p
    rw [hv i p]
    decide
  obtain ⟨hcount, hlastp⟩ := runAttempts_allfail plan0 retryPlan validate hp0 hrp hnp
    (List.range MAX_RETRIES) initialLoopState
  have hlast2 : (List.range MAX_RETRIES).getLast? = some 2 := rfl
  obtain ⟨p2, hlast, hst, herr⟩ := hlastp 2 hlast2
  refine ⟨?_, ?_, ?_, p2, hlast, herr⟩
  · intro rr p0 rp v
    cases rr with
    | none => simp [run_fix, countValidate]
    | some c =>
        have h2 : countValidate (runAttempts p0 rp v (List.range MAX_RETRIES)
            initialLoopState).2 ≤ MAX_RETRIES := by
          simpa using countValidate_le p0 rp v (List.range MAX_RETRIES) initialLoopState
        exact h2
  · show countValidate (runAttempts plan0 retryPlan validate (List.range MAX_RETRIES)
        initialLoopState).2 = MAX_RETRIES
    simpa using hcount
  · show (runAttempts plan0 retryPlan validate (List.range MAX_RETRIES)
        initialLoopState).1.validationStatus = FAIL_TEST
    rw [hst, hv]

/-- Witness for C4 with a concrete always-planning planner and an
always-failing validator: exactly 3 validation calls, final status
FAIL_TEST, last trace entry the attempt-2 validation. -/
theorem C4_retry_bound_witness :
    (∀ (rr p0 : Option String)
        (rp : Nat → Option String → Option String → Option String)
        (v : Nat → String → String × Option String),
      countValidate (run_fix "lis" rr none none p0 rp v).2 ≤ MAX_RETRIES) ∧
    countValidate (run_fix "lis" (some "code") none none (some "A")
        (fun _ _ _ => some "B") (fun _ _ => (FAIL_TEST, some "e"))).2 = MAX_RETRIES ∧
    (run_fix "lis" (some "code") none none (some "A")
        (fun _ _ _ => some "B") (fun _ _ => (FAIL_TEST, some "e"))).1.status = FAIL_TEST ∧
    ∃ p2 : String,
      ((run_fix "lis" (some "code") none none (some "A")
          (fun _ _ _ => some "B") (fun _ _ => (FAIL_TEST, some "e"))).2).getLast? =
        some (Event.validateCall 2 p2) ∧
      (run_fix "lis" (some "code") none none (some "A")
          (fun _ _ _ => some "B") (fun _ _ => (FAIL_TEST, some "e"))).1.errorMessage =
        ((fun (_ : Nat) (_ : String) => (FAIL_TEST, some "e")) 2 p2).2 :=
  by
  have hB : falsy (some "B") = false := by decide
  exact C4_retry_bound "lis" "code" none none (some "A") (fun _ _ _ => some "B")
    (fun _ _ => (FAIL_TEST, some "e")) (by decide) (fun _ _ _ => hB)
    (fun _ _ => rfl)

example : run_java_test (.completed 0 "JUnit version 4.12\nOK (1 test)" "") = (PASS, none) := by
  decide

example : run_java_test (.completed 0 "FAILURES!!!" "x") =
    (FAIL_TEST, some (combinedOutput "FAILURES!!!" "x")) := by
  decide

example :
    (run_fix "a" (some "c") none none (some "A") (fun _ _ _ => some "B")
      (fun i _ => if i = 0 then (FAIL_TEST, some "e0") else (PASS, none))).2 =
    [Event.planCall, Event.validateCall 0 "A",
     Event.retryCall 1 (some "A") (some "e0"), Event.validateCall 1 "B"] := by
  decide

end Arcane
